import Mathlib

/-!
Shallow embedding of `src/tsc/tsc.ts`, the command-line driver (`executeCommandLine`,
`performBuild`, the diagnostic-reporter rebinding, and the statistics subsystem).

External collaborators (the host `sys`, `parseCommandLine`, `parseBuildCommand`,
`findConfigFile`, `parseConfigFileWithSystem`, `validateLocaleAndSetLanguage`,
`convertToTSConfig`, path utilities, and the compile/build engines) are modelled as
an environment of oracle functions; the driver itself is translated statement by
statement.  The driver's observable behaviour is a list of events (diagnostics
reported, text written, files written, version/help printed, engine entry points
invoked) together with an outcome (a process exit status, or entry into the
non-returning watch mode).
-/

namespace Tsc

/-- `ExitStatus` from the compiler's public API, as consumed by `tsc.ts`. -/
inductive ExitStatus where
  | Success
  | DiagnosticsPresent_OutputsSkipped
  | DiagnosticsPresent_OutputsGenerated
  deriving DecidableEq, Repr

/-- The diagnostics `tsc.ts` itself creates (via `createCompilerDiagnostic`), plus an
opaque constructor for diagnostics produced by the external parsers/config loader. -/
inductive Diagnostic where
  | Option_build_must_be_the_first_command_line_argument
  | Option_project_cannot_be_mixed_with_source_files_on_a_command_line
  | Cannot_find_a_tsconfig_json_file_at_the_specified_directory (project : String)
  | The_specified_path_does_not_exist (project : String)
  | The_current_host_does_not_support_the_0_option (opt : String)
  | A_tsconfig_json_file_is_already_defined_at (file : String)
  | Successfully_created_a_tsconfig_json_file
  | External (code : Nat)
  deriving DecidableEq, Repr

/-- The fields of `CompilerOptions` that `executeCommandLine` consumes.  `none` models
a field that is `undefined` (or otherwise falsy, for the string-valued `project` and
`locale`). -/
structure CompilerOptions where
  build : Bool := false
  locale : Option String := none
  init : Bool := false
  version : Bool := false
  help : Bool := false
  all : Bool := false
  project : Option String := none
  showConfig : Bool := false
  pretty : Option Bool := none
  watch : Bool := false
  incremental : Bool := false
  diagnostics : Bool := false
  extendedDiagnostics : Bool := false
  deriving DecidableEq, Repr

/-- The fields of `BuildOptions` that `performBuild` consumes. -/
structure BuildOptions where
  help : Bool := false
  clean : Bool := false
  watch : Bool := false
  pretty : Option Bool := none
  deriving DecidableEq, Repr

/-- `ParsedCommandLine`: result of the external `parseCommandLine`. -/
structure ParsedCommandLine where
  options : CompilerOptions
  fileNames : List String
  errors : List Diagnostic
  deriving DecidableEq, Repr

/-- Result of the external `parseConfigFileWithSystem` (merged options, file list,
parse errors). -/
structure ConfigParseResult where
  options : CompilerOptions
  fileNames : List String
  errors : List Diagnostic
  deriving DecidableEq, Repr

/-- Result of the external `parseBuildCommand`. -/
structure BuildParse where
  buildOptions : BuildOptions
  projects : List String
  errors : List Diagnostic
  deriving DecidableEq, Repr

/-- The host (`ts.sys`) capabilities and probes the driver consults.  Optional host
methods are modelled by their presence/behaviour: `writeOutputIsTTY = none` models the
method being absent, `some b` models it being present and returning `b`.  The pure
capability methods (`getModifiedTime`, …) are modelled by a `Bool` recording whether
the method is present. -/
structure Sys where
  writeOutputIsTTY : Option Bool := none
  getCurrentDirectory : String := ""
  fileExists : String → Bool := fun _ => false
  directoryExists : String → Bool := fun _ => false
  getModifiedTime : Bool := false
  setModifiedTime : Bool := false
  deleteFile : Bool := false
  watchFile : Bool := false
  watchDirectory : Bool := false
  newLine : String := "\n"

/-- Observable events of one driver invocation, in order of occurrence. -/
inductive Event where
  /-- The active `reportDiagnostic` reporter was invoked; records the pretty flag the
  reporter was created with, and the diagnostic. -/
  | ReportDiag (pretty : Bool) (d : Diagnostic)
  /-- `sys.write s`. -/
  | Write (s : String)
  /-- `sys.writeFile path content`. -/
  | WriteFile (path : String) (content : String)
  /-- `printVersion()`. -/
  | PrintVersion
  /-- `printHelp(getOptionsForHelp(commandLine))`; records `!!options.all` (sorted
  full list vs. simplified subset). -/
  | PrintHelp (all : Bool)
  /-- `printHelp(buildOpts, "--build ")`. -/
  | PrintBuildHelp
  /-- `parseCommandLine(args)` ran, i.e. ModeResolver's state machine was entered. -/
  | ParseCmdLine
  /-- `reportDiagnostic` was rebound to a freshly created reporter
  (`updateReportDiagnostic` took its then-branch); records the replaced reporter's
  pretty flag. -/
  | Rebind (oldPretty : Bool)
  /-- `validateLocaleAndSetLanguage` ran for this locale. -/
  | SetLocale (locale : String)
  /-- `performCompilation` delegated to the compiler engine. -/
  | EngineCompile
  /-- `performIncrementalCompilation` delegated to the incremental engine. -/
  | EngineIncremental
  /-- `createWatchProgram` was entered (watch mode set up). -/
  | EngineWatch
  /-- `builder.buildAllProjects()` ran. -/
  | EngineBuild
  /-- `builder.cleanAllProjects()` ran. -/
  | EngineClean
  /-- `builder.startWatching()` ran. -/
  | EngineStartWatch
  deriving DecidableEq, Repr

/-- Outcome of one driver invocation: `sys.exit status`, or entry into the
non-returning watch engine. -/
inductive Outcome where
  | exit (status : ExitStatus)
  | watching
  deriving DecidableEq, Repr

/-- A trace: the events of the invocation, in order, with the final outcome. -/
abbrev DriverResult := List Event × Outcome

/-- The process-wide `reportDiagnostic` binding: the pretty flag of the reporter
closure, and a generation counter distinguishing each freshly created closure (so
that rebinding to a new reporter yields a state unequal to the old one even when the
pretty flag coincides). -/
structure ReporterState where
  pretty : Bool
  gen : Nat
  deriving DecidableEq, Repr

/-- `let reportDiagnostic = createDiagnosticReporter(sys)`: the initial, plain
(non-pretty) reporter. -/
def ReporterState.initial : ReporterState := { pretty := false, gen := 0 }

/-- Reporting one diagnostic through the currently bound reporter. -/
def reportDiag (st : ReporterState) (d : Diagnostic) : Event :=
  Event.ReportDiag st.pretty d

/-- `defaultIsPretty()`: `!!sys.writeOutputIsTTY && sys.writeOutputIsTTY()`. -/
def defaultIsPretty (sys : Sys) : Bool :=
  match sys.writeOutputIsTTY with
  | some b => b
  | none => false

/-- `shouldBePretty(options)`: if `options.pretty` is `undefined`, fall back to
`defaultIsPretty()`, else return the explicit flag.  (The `!options` guard of the
source is vacuous here: every call site passes an options object.) -/
def shouldBePretty (sys : Sys) (pretty : Option Bool) : Bool :=
  match pretty with
  | none => defaultIsPretty sys
  | some b => b

/-- `updateReportDiagnostic(options)`: when `shouldBePretty(options)` holds, rebind
the process-wide `reportDiagnostic` to a freshly created pretty reporter (emitting a
`Rebind` event recording the discarded reporter's flag); otherwise leave the current
binding untouched.  Returns the new reporter state and the events emitted. -/
def updateReportDiagnostic (sys : Sys) (pretty : Option Bool) (st : ReporterState) :
    ReporterState × List Event :=
  if shouldBePretty sys pretty then
    ({ pretty := true, gen := st.gen + 1 }, [Event.Rebind st.pretty])
  else
    (st, [])

/-- `padLeft(s, length)`: prepend spaces while `s.length < length`. -/
def padLeft (s : String) (len : Nat) : String :=
  if s.length < len then padLeft (" " ++ s) len else s
termination_by len - s.length
decreasing_by
  have h2 : (" " : String).length = 1 := rfl
  have h1 := String.length_append " " s
  omega

/-- `padRight(s, length)`: append spaces while `s.length < length`. -/
def padRight (s : String) (len : Nat) : String :=
  if s.length < len then padRight (s ++ " ") len else s
termination_by len - s.length
decreasing_by
  have h2 : (" " : String).length = 1 := rfl
  have h1 := String.length_append s " "
  omega

/-- The environment of external collaborators consumed by the driver: the host
`sys`, the argument/config parsers, path utilities, the locale validator, the
config serializer, and the opaque compile/build engines (modelled by the exit
status each returns). -/
structure Env where
  sys : Sys
  /-- `parseCommandLine(args)` (external). -/
  parseCommandLine : List String → ParsedCommandLine
  /-- `validateLocaleAndSetLanguage(locale, sys, errors)`: the diagnostics it pushes
  onto the error list. -/
  validateLocale : String → List Diagnostic
  /-- `normalizePath` (external path utility). -/
  normalizePath : String → String
  /-- `combinePaths` (external path utility). -/
  combinePaths : String → String → String
  /-- `findConfigFile(searchPath, sys.fileExists)` (external upward search). -/
  findConfigFile : String → Option String
  /-- `parseConfigFileWithSystem(configFileName, commandLineOptions, sys, …)`. -/
  parseConfigFile : String → CompilerOptions → ConfigParseResult
  /-- `JSON.stringify(convertToTSConfig(configParseResult, configFileName, sys), null, 4)`. -/
  serializeConfig : ConfigParseResult → String → String
  /-- `JSON.stringify(convertToTSConfig(commandLine, defaultPath, sys), null, 4)`. -/
  serializeCmdLine : ParsedCommandLine → String → String
  /-- `isWatchSet(options)` (external helper). -/
  isWatchSet : CompilerOptions → Bool
  /-- `isIncrementalCompilation(options)` (external helper). -/
  isIncrementalCompilation : CompilerOptions → Bool
  /-- `generateTSConfig(options, fileNames, sys.newLine)` (external scaffolder). -/
  generateTSConfig : CompilerOptions → List String → String
  /-- `parseBuildCommand(args)` (external). -/
  parseBuildCommand : List String → BuildParse
  /-- Exit status returned by `emitFilesAndReportErrors` inside `performCompilation`. -/
  compileStatus : ExitStatus
  /-- Exit status returned by `ts.performIncrementalCompilation`. -/
  incrementalStatus : ExitStatus
  /-- Exit status returned by `builder.buildAllProjects()`. -/
  buildAllStatus : ExitStatus
  /-- Exit status returned by `builder.cleanAllProjects()`. -/
  cleanAllStatus : ExitStatus

/-- ASCII lower-casing of one character (the only case `toLowerCase` can affect for
the comparisons against `"build"` / `"b"`). -/
def toLowerChar (c : Char) : Char :=
  if 'A' ≤ c ∧ c ≤ 'Z' then Char.ofNat (c.toNat + 32) else c

/-- `s.toLowerCase()` on the character list of `s`. -/
def toLowerStr (s : String) : String :=
  String.mk (s.data.map toLowerChar)

/-- The name tested by the build redirect: when `args[0]` starts with a minus, the
source takes `args[0].slice(args[0].charCodeAt(1) === minus ? 2 : 1).toLowerCase()`;
otherwise no name is extracted. -/
def buildFlagName (a : String) : Option String :=
  match a.data with
  | '-' :: '-' :: rest => some (toLowerStr (String.mk rest))
  | '-' :: rest => some (toLowerStr (String.mk rest))
  | _ => none

/-- The guard of the build redirect at the top of `executeCommandLine`: the first
argument starts with a minus and its stripped, lower-cased name is `"build"` or
`"b"`. -/
def isBuildCommand (args : List String) : Bool :=
  match args with
  | [] => false
  | a :: _ =>
    match buildFlagName a with
    | some firstOption => firstOption == "build" || firstOption == "b"
    | none => false

/-- The events of the locale step: `validateLocaleAndSetLanguage` runs iff
`options.locale` is set. -/
def localeEvents (options : CompilerOptions) : List Event :=
  match options.locale with
  | some loc => [Event.SetLocale loc]
  | none => []

/-- The error list after the locale step: `validateLocaleAndSetLanguage` pushes its
diagnostics onto `commandLine.errors`. -/
def localeErrors (env : Env) (commandLine : ParsedCommandLine) : List Diagnostic :=
  match commandLine.options.locale with
  | some loc => commandLine.errors ++ env.validateLocale loc
  | none => commandLine.errors

/-- `writeConfigFile(options, fileNames)`: if a `tsconfig.json` already exists at the
current directory, report that it is already defined (no write); otherwise write the
scaffolded file and report success. -/
def writeConfigFile (env : Env) (options : CompilerOptions) (fileNames : List String)
    (st : ReporterState) : List Event :=
  let file := env.normalizePath (env.combinePaths env.sys.getCurrentDirectory "tsconfig.json")
  if env.sys.fileExists file then
    [reportDiag st (Diagnostic.A_tsconfig_json_file_is_already_defined_at file)]
  else
    [Event.WriteFile file (env.generateTSConfig options fileNames),
     reportDiag st Diagnostic.Successfully_created_a_tsconfig_json_file]

/-- The `options.project` block (lines 99–124 of the source): either a terminal
result (mixed-with-files error, or a missing-config error), or the resolved
`configFileName` to continue with (`none` meaning no config file is in play). -/
def resolveProject (env : Env) (commandLine : ParsedCommandLine) (st : ReporterState) :
    DriverResult ⊕ Option String :=
  match commandLine.options.project with
  | some proj =>
    if commandLine.fileNames.length ≠ 0 then
      Sum.inl ([reportDiag st Diagnostic.Option_project_cannot_be_mixed_with_source_files_on_a_command_line],
        Outcome.exit ExitStatus.DiagnosticsPresent_OutputsSkipped)
    else
      let fileOrDirectory := env.normalizePath proj
      if fileOrDirectory = "" ∨ env.sys.directoryExists fileOrDirectory then
        let configFileName := env.combinePaths fileOrDirectory "tsconfig.json"
        if env.sys.fileExists configFileName then
          Sum.inr (some configFileName)
        else
          Sum.inl ([reportDiag st (Diagnostic.Cannot_find_a_tsconfig_json_file_at_the_specified_directory proj)],
            Outcome.exit ExitStatus.DiagnosticsPresent_OutputsSkipped)
      else
        let configFileName := fileOrDirectory
        if env.sys.fileExists configFileName then
          Sum.inr (some configFileName)
        else
          Sum.inl ([reportDiag st (Diagnostic.The_specified_path_does_not_exist proj)],
            Outcome.exit ExitStatus.DiagnosticsPresent_OutputsSkipped)
  | none =>
    if commandLine.fileNames.length = 0 then
      Sum.inr (env.findConfigFile (env.normalizePath env.sys.getCurrentDirectory))
    else
      Sum.inr none

/-- Watch / incremental / plain-compile selection shared by the with-config and
without-config branches.  `reportWatchModeWithoutSysSupport` makes a missing
file-watch capability fatal; the three engine entry points are external and their
exit statuses come from the environment (watch setup does not return). -/
def runSelectedMode (env : Env) (opts : CompilerOptions) (st : ReporterState) : DriverResult :=
  if env.isWatchSet opts then
    if !env.sys.watchFile || !env.sys.watchDirectory then
      ([reportDiag st (Diagnostic.The_current_host_does_not_support_the_0_option "--watch")],
        Outcome.exit ExitStatus.DiagnosticsPresent_OutputsSkipped)
    else
      ([Event.EngineWatch], Outcome.watching)
  else if env.isIncrementalCompilation opts then
    ([Event.EngineIncremental], Outcome.exit env.incrementalStatus)
  else
    ([Event.EngineCompile], Outcome.exit env.compileStatus)

/-- Lines 126–175 of the source: the empty-input help screen, then the branch on
whether a configuration file was resolved, covering `showConfig` and the final mode
selection. -/
def resolveConfigAndRun (env : Env) (commandLine : ParsedCommandLine)
    (configFileName : Option String) (st : ReporterState) : DriverResult :=
  if commandLine.fileNames.length = 0 ∧ configFileName = none then
    ([Event.PrintVersion, Event.PrintHelp commandLine.options.all], Outcome.exit ExitStatus.Success)
  else
    match configFileName with
    | some cfg =>
      let configParseResult := env.parseConfigFile cfg commandLine.options
      if commandLine.options.showConfig then
        if configParseResult.errors.length ≠ 0 then
          let r := updateReportDiagnostic env.sys configParseResult.options.pretty st
          (r.2 ++ configParseResult.errors.map (reportDiag r.1),
            Outcome.exit ExitStatus.DiagnosticsPresent_OutputsSkipped)
        else
          ([Event.Write (env.serializeConfig configParseResult cfg ++ env.sys.newLine)],
            Outcome.exit ExitStatus.Success)
      else
        let r := updateReportDiagnostic env.sys configParseResult.options.pretty st
        let m := runSelectedMode env configParseResult.options r.1
        (r.2 ++ m.1, m.2)
    | none =>
      if commandLine.options.showConfig then
        ([Event.Write (env.serializeCmdLine commandLine
            (env.combinePaths env.sys.getCurrentDirectory "tsconfig.json") ++ env.sys.newLine)],
          Outcome.exit ExitStatus.Success)
      else
        let r := updateReportDiagnostic env.sys commandLine.options.pretty st
        let m := runSelectedMode env commandLine.options r.1
        (r.2 ++ m.1, m.2)

/-- `performBuild(args)`: parse build arguments, rebind the reporter from the build
options, then in order: report parse errors; `--help` or zero projects shows build
help; check host modification-time (and, for `clean`, deletion) capability; watch
mode (after checking file-watch capability) builds all projects and starts watching;
otherwise clean or build all projects and exit with the builder's status. -/
def performBuild (env : Env) (args : List String) : DriverResult :=
  let p := env.parseBuildCommand args
  let r := updateReportDiagnostic env.sys p.buildOptions.pretty ReporterState.initial
  let st := r.1
  if p.errors.length > 0 then
    (r.2 ++ p.errors.map (reportDiag st), Outcome.exit ExitStatus.DiagnosticsPresent_OutputsSkipped)
  else if p.buildOptions.help then
    (r.2 ++ [Event.PrintVersion, Event.PrintBuildHelp], Outcome.exit ExitStatus.Success)
  else if p.projects.length = 0 then
    (r.2 ++ [Event.PrintVersion, Event.PrintBuildHelp], Outcome.exit ExitStatus.Success)
  else if !env.sys.getModifiedTime || !env.sys.setModifiedTime
      || (p.buildOptions.clean && !env.sys.deleteFile) then
    (r.2 ++ [reportDiag st (Diagnostic.The_current_host_does_not_support_the_0_option "--build")],
      Outcome.exit ExitStatus.DiagnosticsPresent_OutputsSkipped)
  else if p.buildOptions.watch then
    if !env.sys.watchFile || !env.sys.watchDirectory then
      (r.2 ++ [reportDiag st (Diagnostic.The_current_host_does_not_support_the_0_option "--watch")],
        Outcome.exit ExitStatus.DiagnosticsPresent_OutputsSkipped)
    else
      (r.2 ++ [Event.EngineBuild, Event.EngineStartWatch], Outcome.watching)
  else if p.buildOptions.clean then
    (r.2 ++ [Event.EngineClean], Outcome.exit env.cleanAllStatus)
  else
    (r.2 ++ [Event.EngineBuild], Outcome.exit env.buildAllStatus)

/-- `executeCommandLine(args)`: the build redirect, then ModeResolver — parse the
command line, reject a misplaced `--build`, run the locale step, report accumulated
errors, handle `init` / `version` / `help` / `all`, resolve the `project` option or
search upward for a config file, and finally dispatch through
`resolveConfigAndRun`.  A `ParseCmdLine` event marks that `parseCommandLine` ran,
i.e. that the resolver's state machine was entered at all. -/
def executeCommandLine (env : Env) (args : List String) : DriverResult :=
  if isBuildCommand args then
    performBuild env (args.drop 1)
  else
    let st := ReporterState.initial
    let commandLine := env.parseCommandLine args
    if commandLine.options.build then
      ([Event.ParseCmdLine,
        reportDiag st Diagnostic.Option_build_must_be_the_first_command_line_argument],
        Outcome.exit ExitStatus.DiagnosticsPresent_OutputsSkipped)
    else
      let evLoc := localeEvents commandLine.options
      let errors := localeErrors env commandLine
      if errors.length > 0 then
        (Event.ParseCmdLine :: evLoc ++ errors.map (reportDiag st),
          Outcome.exit ExitStatus.DiagnosticsPresent_OutputsSkipped)
      else if commandLine.options.init then
        (Event.ParseCmdLine :: evLoc ++ writeConfigFile env commandLine.options commandLine.fileNames st,
          Outcome.exit ExitStatus.Success)
      else if commandLine.options.version then
        (Event.ParseCmdLine :: evLoc ++ [Event.PrintVersion], Outcome.exit ExitStatus.Success)
      else if commandLine.options.help || commandLine.options.all then
        (Event.ParseCmdLine :: evLoc ++ [Event.PrintVersion, Event.PrintHelp commandLine.options.all],
          Outcome.exit ExitStatus.Success)
      else
        match resolveProject env commandLine st with
        | Sum.inl r => (Event.ParseCmdLine :: evLoc ++ r.1, r.2)
        | Sum.inr configFileName =>
          let r := resolveConfigAndRun env commandLine configFileName st
          (Event.ParseCmdLine :: evLoc ++ r.1, r.2)

/-! ### The statistics subsystem (`reportStatistics` and its helpers) -/

/-- `Statistic` from the source: a named, already-stringified measurement. -/
structure Statistic where
  name : String
  value : String
  deriving DecidableEq, Repr

/-- The `nameSize`/`valueSize` loop of the nested `reportStatistics` renderer: both
start at `0` and are bumped whenever a longer name / value is seen. -/
def computeSizes (statistics : List Statistic) : Nat × Nat :=
  statistics.foldl
    (fun acc s =>
      (if s.name.length > acc.1 then s.name.length else acc.1,
       if s.value.length > acc.2 then s.value.length else acc.2))
    (0, 0)

/-- The second loop of the nested `reportStatistics` renderer: one written line per
statistic, in collection order —
`padRight(name + ":", nameSize + 2) + padLeft(value, valueSize) + sys.newLine`. -/
def renderStatistics (newLine : String) (statistics : List Statistic) : List String :=
  let sizes := computeSizes statistics
  statistics.map (fun s =>
    padRight (s.name ++ ":") (sizes.1 + 2) ++ padLeft s.value sizes.2 ++ newLine)

/-- JavaScript `Math.round` on a rational: floor of `q + 1/2` (ties round up). -/
def jsRound (q : ℚ) : ℤ := ⌊q + 1 / 2⌋

/-- Two-decimal fixed-point rendering of a (nonnegative) rational, modelling
`Number.prototype.toFixed(2)`: round to the nearest hundredth (ties up) and print
with exactly two digits after the point. -/
def toFixed2 (q : ℚ) : String :=
  let n : ℤ := ⌊q * 100 + 1 / 2⌋
  let whole : ℤ := n / 100
  let frac : ℕ := (n % 100).toNat
  toString whole ++ "." ++ (if frac < 10 then "0" ++ toString frac else toString frac)

/-- `reportCountStatistic(name, count)`: value is the decimal rendering of the count. -/
def countStat (name : String) (count : Nat) : Statistic :=
  { name := name, value := toString count }

/-- `reportTimeStatistic(name, time)`: value is `(time / 1000).toFixed(2) + "s"`. -/
def timeStat (name : String) (time : ℚ) : Statistic :=
  { name := name, value := toFixed2 (time / 1000) ++ "s" }

/-- The per-program counts `reportStatistics` reads off the `Program`, plus the
host memory probe (`-1` when `sys.getMemoryUsage` is absent). -/
structure ProgramData where
  filesCount : Nat
  lines : Nat
  nodes : Nat
  identifiers : Nat
  symbols : Nat
  types : Nat
  assignableCacheSize : Nat
  identityCacheSize : Nat
  subtypeCacheSize : Nat
  memoryUsed : Int

/-- The durations (milliseconds) `reportStatistics` reads from `performance`, and,
for extended diagnostics, every named measure enumerated by
`performance.forEachMeasure`. -/
structure PerfData where
  programTime : ℚ
  bindTime : ℚ
  checkTime : ℚ
  emitTime : ℚ
  ioReadTime : ℚ
  ioWriteTime : ℚ
  measures : List (String × ℚ)

/-- The statistics collected by `reportStatistics` (lines 323–359 of the source), in
push order: the six counts; memory when the probe is available; then under extended
diagnostics the three relation-cache sizes and every named measure, otherwise the
curated I/O read / I/O write / Parse / Bind / Check / Emit rows; and finally the
`Total time` row, whose time is the sum of the program (parse), bind, check and emit
durations. -/
def collectStatistics (compilerOptions : CompilerOptions) (pd : ProgramData)
    (perf : PerfData) : List Statistic :=
  [countStat "Files" pd.filesCount,
   countStat "Lines" pd.lines,
   countStat "Nodes" pd.nodes,
   countStat "Identifiers" pd.identifiers,
   countStat "Symbols" pd.symbols,
   countStat "Types" pd.types]
  ++ (if pd.memoryUsed ≥ 0 then
        [{ name := "Memory used",
           value := toString (jsRound ((pd.memoryUsed : ℚ) / 1000)) ++ "K" }]
      else [])
  ++ (if compilerOptions.extendedDiagnostics then
        [countStat "Assignability cache size" pd.assignableCacheSize,
         countStat "Identity cache size" pd.identityCacheSize,
         countStat "Subtype cache size" pd.subtypeCacheSize]
        ++ perf.measures.map (fun m => timeStat (m.1 ++ " time") m.2)
      else
        [timeStat "I/O read" perf.ioReadTime,
         timeStat "I/O write" perf.ioWriteTime,
         timeStat "Parse time" perf.programTime,
         timeStat "Bind time" perf.bindTime,
         timeStat "Check time" perf.checkTime,
         timeStat "Emit time" perf.emitTime])
  ++ [timeStat "Total time" (perf.programTime + perf.bindTime + perf.checkTime + perf.emitTime)]

/-- Recognizer for reporter invocations, used to state diagnostic-count facts. -/
def isReportDiagEvent : Event → Bool
  | Event.ReportDiag _ _ => true
  | _ => false

/-- Recognizer for `sys.write` events, used to state that a branch writes nothing. -/
def isWriteEvent : Event → Bool
  | Event.Write _ => true
  | _ => false

/-! ### Supporting lemmas -/

theorem padLeft_data_aux : ∀ (k : Nat) (s : String) (n : Nat), n - s.length = k →
    (padLeft s n).data = List.replicate (n - s.length) ' ' ++ s.data := by
  intro k
  induction k with
  | zero =>
    intro s n hk
    rw [padLeft]
    have h : ¬ s.length < n := by omega
    simp [h, hk]
  | succ m ih =>
    intro s n hk
    have hlt : s.length < n := by omega
    have hsp : (" " : String).length = 1 := rfl
    have hlen : (" " ++ s).length = 1 + s.length := by
      rw [String.length_append, hsp]
    rw [padLeft]
    simp only [hlt, if_true]
    rw [ih (" " ++ s) n (by omega)]
    have hdata : (" " ++ s).data = ' ' :: s.data := by
      rw [String.data_append]; rfl
    rw [hdata, hlen, hk]
    have hm : n - (1 + s.length) = m := by omega
    rw [hm, List.replicate_succ']
    simp

/-- `padLeft` prepends exactly `len - s.length` spaces (and in particular never
truncates). -/
theorem padLeft_data (s : String) (n : Nat) :
    (padLeft s n).data = List.replicate (n - s.length) ' ' ++ s.data :=
  padLeft_data_aux (n - s.length) s n rfl

theorem padRight_data_aux : ∀ (k : Nat) (s : String) (n : Nat), n - s.length = k →
    (padRight s n).data = s.data ++ List.replicate (n - s.length) ' ' := by
  intro k
  induction k with
  | zero =>
    intro s n hk
    rw [padRight]
    have h : ¬ s.length < n := by omega
    simp [h, hk]
  | succ m ih =>
    intro s n hk
    have hlt : s.length < n := by omega
    have hsp : (" " : String).length = 1 := rfl
    have hlen : (s ++ " ").length = s.length + 1 := by
      rw [String.length_append, hsp]
    rw [padRight]
    simp only [hlt, if_true]
    rw [ih (s ++ " ") n (by omega)]
    have hdata : (s ++ " ").data = s.data ++ [' '] := by
      rw [String.data_append]
    rw [hdata, hlen, hk]
    have hm : n - (s.length + 1) = m := by omega
    rw [hm, List.replicate_succ]
    simp

/-- `padRight` appends exactly `len - s.length` spaces (and in particular never
truncates). -/
theorem padRight_data (s : String) (n : Nat) :
    (padRight s n).data = s.data ++ List.replicate (n - s.length) ' ' :=
  padRight_data_aux (n - s.length) s n rfl

/-- A string at least as long as the requested width is returned unchanged by both
pads. -/
theorem pad_of_ge (s : String) (n : Nat) (h : n ≤ s.length) :
    padLeft s n = s ∧ padRight s n = s := by
  constructor
  · rw [padLeft]; simp [Nat.not_lt.2 h]
  · rw [padRight]; simp [Nat.not_lt.2 h]

section FoldMax

variable {α : Type} (f : α → Nat)

theorem foldl_max_init_le : ∀ (l : List α) (init : Nat),
    init ≤ l.foldl (fun a x => max a (f x)) init := by
  intro l
  induction l with
  | nil => intro init; simp
  | cons x xs ih =>
    intro init
    simp only [List.foldl_cons]
    exact le_trans (le_max_left _ _) (ih _)

theorem foldl_max_bound : ∀ (l : List α) (init : Nat) (x : α), x ∈ l →
    f x ≤ l.foldl (fun a y => max a (f y)) init := by
  intro l
  induction l with
  | nil => intro init x hx; simp at hx
  | cons y ys ih =>
    intro init x hx
    rcases List.mem_cons.1 hx with h | h
    · subst h
      simp only [List.foldl_cons]
      exact le_trans (le_max_right _ _) (foldl_max_init_le f ys _)
    · exact ih _ x h

theorem foldl_max_attained : ∀ (l : List α) (init : Nat),
    l.foldl (fun a y => max a (f y)) init = init ∨
    ∃ x ∈ l, l.foldl (fun a y => max a (f y)) init = f x := by
  intro l
  induction l with
  | nil => intro init; simp
  | cons y ys ih =>
    intro init
    rcases ih (max init (f y)) with h | ⟨x, hx, hfx⟩
    · simp only [List.foldl_cons]
      rcases le_or_lt (f y) init with hle | hlt
      · left; rw [h]; omega
      · right; exact ⟨y, List.mem_cons_self y ys, by rw [h]; omega⟩
    · right
      refine ⟨x, List.mem_cons_of_mem _ hx, ?_⟩
      simp only [List.foldl_cons]
      exact hfx

end FoldMax

/-- The `nameSize`/`valueSize` loop computes the two independent running maxima. -/
theorem computeSizes_eq : ∀ (stats : List Statistic) (a b : Nat),
    stats.foldl
      (fun acc s =>
        (if s.name.length > acc.1 then s.name.length else acc.1,
         if s.value.length > acc.2 then s.value.length else acc.2))
      (a, b)
    = (stats.foldl (fun acc s => max acc s.name.length) a,
       stats.foldl (fun acc s => max acc s.value.length) b) := by
  intro stats
  induction stats with
  | nil => intro a b; rfl
  | cons s ss ih =>
    intro a b
    simp only [List.foldl_cons]
    rw [show (if s.name.length > a then s.name.length else a) = max a s.name.length from by
          split <;> omega,
        show (if s.value.length > b then s.value.length else b) = max b s.value.length from by
          split <;> omega]
    exact ih _ _

theorem computeSizes_fst (stats : List Statistic) :
    (computeSizes stats).1 = stats.foldl (fun acc s => max acc s.name.length) 0 := by
  unfold computeSizes
  rw [computeSizes_eq]

theorem computeSizes_snd (stats : List Statistic) :
    (computeSizes stats).2 = stats.foldl (fun acc s => max acc s.value.length) 0 := by
  unfold computeSizes
  rw [computeSizes_eq]

theorem name_foldl_bound (stats : List Statistic) (init : Nat) (s : Statistic)
    (hs : s ∈ stats) :
    s.name.length ≤ stats.foldl (fun acc t => max acc t.name.length) init :=
  foldl_max_bound (fun t : Statistic => t.name.length) stats init s hs

theorem name_foldl_attained (stats : List Statistic) (init : Nat) :
    stats.foldl (fun acc t => max acc t.name.length) init = init ∨
    ∃ x ∈ stats, stats.foldl (fun acc t => max acc t.name.length) init = x.name.length :=
  foldl_max_attained (fun t : Statistic => t.name.length) stats init

theorem value_foldl_bound (stats : List Statistic) (init : Nat) (s : Statistic)
    (hs : s ∈ stats) :
    s.value.length ≤ stats.foldl (fun acc t => max acc t.value.length) init :=
  foldl_max_bound (fun t : Statistic => t.value.length) stats init s hs

theorem value_foldl_attained (stats : List Statistic) (init : Nat) :
    stats.foldl (fun acc t => max acc t.value.length) init = init ∨
    ∃ x ∈ stats, stats.foldl (fun acc t => max acc t.value.length) init = x.value.length :=
  foldl_max_attained (fun t : Statistic => t.value.length) stats init

/-! ### Claim theorems -/

/-- C3: for every non-empty collection of statistics, the renderer computes
`nameWidth` as the maximum name length and `valueWidth` as the maximum value length
over all collected statistics, then for each statistic in collection order emits
`rightPad(name + ":", nameWidth + 2)` followed by `leftPad(value, valueWidth)`
followed by a newline; padding uses space characters and `padLeft`/`padRight` never
truncate, only extend (the input is returned unchanged when already at least the
requested length). -/
theorem claim_C3_statistics_rendering (newLine : String) (stats : List Statistic)
    (hne : stats ≠ []) :
    (∀ s ∈ stats, s.name.length ≤ (computeSizes stats).1) ∧
    (∃ s ∈ stats, s.name.length = (computeSizes stats).1) ∧
    (∀ s ∈ stats, s.value.length ≤ (computeSizes stats).2) ∧
    (∃ s ∈ stats, s.value.length = (computeSizes stats).2) ∧
    renderStatistics newLine stats
      = stats.map (fun s =>
          padRight (s.name ++ ":") ((computeSizes stats).1 + 2)
            ++ padLeft s.value (computeSizes stats).2 ++ newLine) ∧
    (∀ (s : String) (n : Nat),
        (padLeft s n).data = List.replicate (n - s.length) ' ' ++ s.data) ∧
    (∀ (s : String) (n : Nat),
        (padRight s n).data = s.data ++ List.replicate (n - s.length) ' ') ∧
    (∀ (s : String) (n : Nat), n ≤ s.length → padLeft s n = s ∧ padRight s n = s) := by
  obtain ⟨s0, rest, rfl⟩ := List.exists_cons_of_ne_nil hne
  refine ⟨?_, ?_, ?_, ?_, rfl, padLeft_data, padRight_data, pad_of_ge⟩
  · intro s hs
    rw [computeSizes_fst]
    exact name_foldl_bound _ _ _ hs
  · rw [computeSizes_fst]
    rcases name_foldl_attained (s0 :: rest) 0 with h | ⟨x, hx, hfx⟩
    · refine ⟨s0, List.mem_cons_self _ _, ?_⟩
      have hb := name_foldl_bound (s0 :: rest) 0 s0 (List.mem_cons_self _ _)
      omega
    · exact ⟨x, hx, hfx.symm⟩
  · intro s hs
    rw [computeSizes_snd]
    exact value_foldl_bound _ _ _ hs
  · rw [computeSizes_snd]
    rcases value_foldl_attained (s0 :: rest) 0 with h | ⟨x, hx, hfx⟩
    · refine ⟨s0, List.mem_cons_self _ _, ?_⟩
      have hb := value_foldl_bound (s0 :: rest) 0 s0 (List.mem_cons_self _ _)
      omega
    · exact ⟨x, hx, hfx.symm⟩

/-- Concrete statistics list used to witness C3. -/
def statsW : List Statistic :=
  [{ name := "Files", value := "3" }, { name := "Lines", value := "120" }]

/-- Witness for C3 at a concrete two-row statistics list. -/
theorem claim_C3_statistics_rendering_witness :
    statsW ≠ [] ∧
    ((∀ s ∈ statsW, s.name.length ≤ (computeSizes statsW).1) ∧
     (∃ s ∈ statsW, s.name.length = (computeSizes statsW).1) ∧
     (∀ s ∈ statsW, s.value.length ≤ (computeSizes statsW).2) ∧
     (∃ s ∈ statsW, s.value.length = (computeSizes statsW).2) ∧
     renderStatistics "\n" statsW
       = statsW.map (fun s =>
           padRight (s.name ++ ":") ((computeSizes statsW).1 + 2)
             ++ padLeft s.value (computeSizes statsW).2 ++ "\n") ∧
     (∀ (s : String) (n : Nat),
         (padLeft s n).data = List.replicate (n - s.length) ' ' ++ s.data) ∧
     (∀ (s : String) (n : Nat),
         (padRight s n).data = s.data ++ List.replicate (n - s.length) ' ') ∧
     (∀ (s : String) (n : Nat), n ≤ s.length → padLeft s n = s ∧ padRight s n = s)) :=
  ⟨by decide, claim_C3_statistics_rendering "\n" statsW (by decide)⟩

/-- C4: in every statistics reporting pass (either diagnostics mode), a
`"Total time"` row is appended last; its underlying time is the exact sum of the
parse (program), bind, check and emit durations, rendered by the same
two-decimal-seconds rule (`(time / 1000).toFixed(2) + "s"`) that renders each
component row; and in basic-diagnostics mode the four component rows are reported
with that same rule. -/
theorem claim_C4_total_time (opts : CompilerOptions) (pd : ProgramData) (perf : PerfData) :
    (collectStatistics opts pd perf).getLast? =
      some (timeStat "Total time"
        (perf.programTime + perf.bindTime + perf.checkTime + perf.emitTime)) ∧
    timeStat "Total time" (perf.programTime + perf.bindTime + perf.checkTime + perf.emitTime)
      = { name := "Total time",
          value := toFixed2
            ((perf.programTime + perf.bindTime + perf.checkTime + perf.emitTime) / 1000) ++ "s" } ∧
    (opts.extendedDiagnostics = false →
      timeStat "Parse time" perf.programTime ∈ collectStatistics opts pd perf ∧
      timeStat "Bind time" perf.bindTime ∈ collectStatistics opts pd perf ∧
      timeStat "Check time" perf.checkTime ∈ collectStatistics opts pd perf ∧
      timeStat "Emit time" perf.emitTime ∈ collectStatistics opts pd perf) := by
  refine ⟨?_, rfl, ?_⟩
  · unfold collectStatistics
    rw [List.getLast?_concat]
  · intro h
    refine ⟨?_, ?_, ?_, ?_⟩ <;> · unfold collectStatistics; rw [h]; simp

/-- The build dispatcher never runs `parseCommandLine`: no branch of `performBuild`
emits a `ParseCmdLine` event. -/
theorem parseCmdLine_not_in_performBuild (env : Env) (args : List String) :
    Event.ParseCmdLine ∉ (performBuild env args).1 := by
  rcases hE : performBuild env args with ⟨t, o⟩
  unfold performBuild at hE
  by_cases hc : shouldBePretty env.sys (env.parseBuildCommand args).buildOptions.pretty
  all_goals simp only [updateReportDiagnostic, hc, if_true, if_false, ite_true, ite_false,
    Bool.false_eq_true] at hE
  all_goals repeat' split at hE
  all_goals
    injection hE with h1 h2
    subst h1
    simp [reportDiag]

/-- C1: whenever the first argument begins with the minus marker and its name, after
stripping one or two leading marker characters, case-insensitively equals `"build"`
or `"b"`, `executeCommandLine` transfers control entirely to `performBuild` with the
remaining arguments, and ModeResolver (`parseCommandLine` and every later state)
never runs — regardless of the remaining arguments. -/
theorem claim_C1_build_redirect (env : Env) (args : List String)
    (h : isBuildCommand args = true) :
    executeCommandLine env args = performBuild env (args.drop 1) ∧
    Event.ParseCmdLine ∉ (executeCommandLine env args).1 := by
  have he : executeCommandLine env args = performBuild env (args.drop 1) := by
    unfold executeCommandLine
    rw [h]
    simp
  exact ⟨he, he ▸ parseCmdLine_not_in_performBuild env (args.drop 1)⟩

/-- A concrete environment for witnesses: a bare host and trivial collaborators.
Individual witnesses override the parser oracles as needed. -/
def baseEnv : Env :=
  { sys := {}
    parseCommandLine := fun _ => { options := {}, fileNames := [], errors := [] }
    validateLocale := fun _ => []
    normalizePath := id
    combinePaths := fun a b => a ++ "/" ++ b
    findConfigFile := fun _ => none
    parseConfigFile := fun _ opts => { options := opts, fileNames := [], errors := [] }
    serializeConfig := fun _ _ => "null"
    serializeCmdLine := fun _ _ => "null"
    isWatchSet := fun o => o.watch
    isIncrementalCompilation := fun o => o.incremental
    generateTSConfig := fun _ _ => "null"
    parseBuildCommand := fun _ => { buildOptions := {}, projects := [], errors := [] }
    compileStatus := ExitStatus.Success
    incrementalStatus := ExitStatus.Success
    buildAllStatus := ExitStatus.Success
    cleanAllStatus := ExitStatus.Success }

/-- Witness for C1: a concrete `--build` invocation takes the redirect. -/
theorem claim_C1_build_redirect_witness :
    isBuildCommand ["--build", "proj"] = true ∧
    (executeCommandLine baseEnv ["--build", "proj"]
        = performBuild baseEnv (["--build", "proj"].drop 1) ∧
     Event.ParseCmdLine ∉ (executeCommandLine baseEnv ["--build", "proj"]).1) :=
  ⟨by decide, claim_C1_build_redirect baseEnv ["--build", "proj"] (by decide)⟩

/-- Concrete durations used to witness C4 (basic diagnostics mode). -/
def perfW : PerfData :=
  { programTime := 120, bindTime := 80, checkTime := 305, emitTime := 95,
    ioReadTime := 40, ioWriteTime := 20, measures := [] }

/-- Concrete program counts used to witness C4. -/
def programDataW : ProgramData :=
  { filesCount := 3, lines := 120, nodes := 500, identifiers := 200, symbols := 90,
    types := 40, assignableCacheSize := 0, identityCacheSize := 0, subtypeCacheSize := 0,
    memoryUsed := -1 }

/-- Witness for C4 at a concrete basic-diagnostics pass. -/
theorem claim_C4_total_time_witness :
    (collectStatistics {} programDataW perfW).getLast? =
      some (timeStat "Total time"
        (perfW.programTime + perfW.bindTime + perfW.checkTime + perfW.emitTime)) ∧
    (CompilerOptions.extendedDiagnostics {} = false) ∧
    timeStat "Parse time" perfW.programTime ∈ collectStatistics {} programDataW perfW :=
  ⟨(claim_C4_total_time {} programDataW perfW).1, rfl,
    ((claim_C4_total_time {} programDataW perfW).2.2 rfl).1⟩

/-- C5: called on the (plain) currently bound reporter, `updateReportDiagnostic`
replaces the process-wide reporter with a freshly created one iff the computed
prettiness differs from the bound reporter's prettiness; the old reporter is
discarded — the rebind step itself reports (replays) no diagnostics; the new
reporter, when one is produced, carries the computed prettiness; and the computed
prettiness is `options.pretty` when set, else the terminal-interactivity probe.
The hypothesis `st.pretty = false` reflects the process invariant that rebinding is
only ever invoked (at most once per invocation) while the initial plain reporter
from module load is bound. -/
theorem claim_C5_reporter_rebind (sys : Sys) (pretty : Option Bool) (st : ReporterState)
    (hcur : st.pretty = false) :
    ((updateReportDiagnostic sys pretty st).1 ≠ st ↔ shouldBePretty sys pretty ≠ st.pretty) ∧
    (∀ (b : Bool) (d : Diagnostic),
        Event.ReportDiag b d ∉ (updateReportDiagnostic sys pretty st).2) ∧
    ((updateReportDiagnostic sys pretty st).1 ≠ st →
        (updateReportDiagnostic sys pretty st).1.pretty = shouldBePretty sys pretty) ∧
    shouldBePretty sys pretty
      = (match pretty with
         | some b => b
         | none => defaultIsPretty sys) := by
  have hdef : shouldBePretty sys pretty
      = (match pretty with | some b => b | none => defaultIsPretty sys) := by
    cases pretty <;> rfl
  by_cases hp : shouldBePretty sys pretty = true
  · refine ⟨?_, ?_, ?_, hdef⟩
    · unfold updateReportDiagnostic
      rw [if_pos hp]
      constructor
      · intro _
        rw [hp, hcur]
        simp
      · intro _ heq
        have hpr := congrArg ReporterState.pretty heq
        simp [hcur] at hpr
    · unfold updateReportDiagnostic
      rw [if_pos hp]
      intro b d
      simp
    · unfold updateReportDiagnostic
      rw [if_pos hp]
      intro _
      simp [hp]
  · have hp' : shouldBePretty sys pretty = false := by
      cases h : shouldBePretty sys pretty
      · rfl
      · exact absurd h hp
    refine ⟨?_, ?_, ?_, hdef⟩
    · unfold updateReportDiagnostic
      rw [if_neg hp]
      simp [hp', hcur]
    · unfold updateReportDiagnostic
      rw [if_neg hp]
      intro b d
      simp
    · unfold updateReportDiagnostic
      rw [if_neg hp]
      intro h
      exact absurd rfl h

/-- Concrete host whose output stream is an interactive terminal, for the C5
witness. -/
def sysW : Sys := { writeOutputIsTTY := some true }

/-- Witness for C5: explicit `pretty := some true` against the freshly initialised
plain reporter. -/
theorem claim_C5_reporter_rebind_witness :
    ReporterState.initial.pretty = false ∧
    (((updateReportDiagnostic sysW (some true) ReporterState.initial).1 ≠ ReporterState.initial ↔
        shouldBePretty sysW (some true) ≠ ReporterState.initial.pretty) ∧
     (∀ (b : Bool) (d : Diagnostic),
        Event.ReportDiag b d ∉ (updateReportDiagnostic sysW (some true) ReporterState.initial).2) ∧
     ((updateReportDiagnostic sysW (some true) ReporterState.initial).1 ≠ ReporterState.initial →
        (updateReportDiagnostic sysW (some true) ReporterState.initial).1.pretty
          = shouldBePretty sysW (some true)) ∧
     shouldBePretty sysW (some true)
       = (match (some true : Option Bool) with
          | some b => b
          | none => defaultIsPretty sysW)) :=
  ⟨rfl, claim_C5_reporter_rebind sysW (some true) ReporterState.initial rfl⟩

/-- C6: when `--build` is not the first argument but the parsed options carry
`build = true`, `executeCommandLine` reports exactly one diagnostic — "build must be
the first command line argument" — and exits `DiagnosticsPresent_OutputsSkipped`,
before the locale step, error reporting, or any mode selection (the whole trace is
the parse marker followed by that one diagnostic). -/
theorem claim_C6_build_not_first (env : Env) (args : List String)
    (hnb : isBuildCommand args = false)
    (hb : (env.parseCommandLine args).options.build = true) :
    executeCommandLine env args =
      ([Event.ParseCmdLine,
        Event.ReportDiag false Diagnostic.Option_build_must_be_the_first_command_line_argument],
       Outcome.exit ExitStatus.DiagnosticsPresent_OutputsSkipped) ∧
    (executeCommandLine env args).1.countP (fun e => isReportDiagEvent e) = 1 ∧
    (∀ loc, Event.SetLocale loc ∉ (executeCommandLine env args).1) := by
  have he : executeCommandLine env args =
      ([Event.ParseCmdLine,
        Event.ReportDiag false Diagnostic.Option_build_must_be_the_first_command_line_argument],
       Outcome.exit ExitStatus.DiagnosticsPresent_OutputsSkipped) := by
    unfold executeCommandLine
    simp [hnb, hb, reportDiag, ReporterState.initial]
  refine ⟨he, ?_, ?_⟩
  · rw [he]
    rfl
  · intro loc
    rw [he]
    simp

/-- Environment whose parser reports `build = true` from a non-first-position
`--build`, for the C6 witness. -/
def envC6 : Env :=
  { baseEnv with
    parseCommandLine := fun _ => { options := { build := true }, fileNames := [], errors := [] } }

/-- Witness for C6 at a concrete argument vector whose first token is not a build
flag. -/
theorem claim_C6_build_not_first_witness :
    isBuildCommand ["a.ts", "--build"] = false ∧
    (envC6.parseCommandLine ["a.ts", "--build"]).options.build = true ∧
    executeCommandLine envC6 ["a.ts", "--build"] =
      ([Event.ParseCmdLine,
        Event.ReportDiag false Diagnostic.Option_build_must_be_the_first_command_line_argument],
       Outcome.exit ExitStatus.DiagnosticsPresent_OutputsSkipped) :=
  ⟨by decide, rfl, (claim_C6_build_not_first envC6 ["a.ts", "--build"] (by decide) rfl).1⟩

/-- C8: with no project option, no earlier terminal state (no misplaced build flag,
no parse/locale errors, and `init`/`version`/`help`/`all` unset), an empty file list
and no configuration file found by the upward search, the driver prints the version
and the help text and exits `Success`. -/
theorem claim_C8_no_input_help (env : Env) (args : List String)
    (hnb : isBuildCommand args = false)
    (hb : (env.parseCommandLine args).options.build = false)
    (herr : localeErrors env (env.parseCommandLine args) = [])
    (hinit : (env.parseCommandLine args).options.init = false)
    (hver : (env.parseCommandLine args).options.version = false)
    (hhelp : (env.parseCommandLine args).options.help = false)
    (hall : (env.parseCommandLine args).options.all = false)
    (hproj : (env.parseCommandLine args).options.project = none)
    (hfiles : (env.parseCommandLine args).fileNames = [])
    (hfind : env.findConfigFile (env.normalizePath env.sys.getCurrentDirectory) = none) :
    executeCommandLine env args =
      (Event.ParseCmdLine :: localeEvents (env.parseCommandLine args).options
        ++ [Event.PrintVersion, Event.PrintHelp false],
       Outcome.exit ExitStatus.Success) := by
  unfold executeCommandLine resolveProject resolveConfigAndRun
  simp [hnb, hb, herr, hinit, hver, hhelp, hall, hproj, hfiles, hfind]

/-- Witness for C8: the bare environment with an empty argument vector. -/
theorem claim_C8_no_input_help_witness :
    isBuildCommand ([] : List String) = false ∧
    (baseEnv.parseCommandLine []).fileNames = [] ∧
    baseEnv.findConfigFile (baseEnv.normalizePath baseEnv.sys.getCurrentDirectory) = none ∧
    executeCommandLine baseEnv [] =
      (Event.ParseCmdLine :: localeEvents (baseEnv.parseCommandLine []).options
        ++ [Event.PrintVersion, Event.PrintHelp false],
       Outcome.exit ExitStatus.Success) :=
  ⟨rfl, rfl, rfl,
    claim_C8_no_input_help baseEnv [] rfl rfl rfl rfl rfl rfl rfl rfl rfl rfl⟩

/-- C9: a build invocation that passes the error and help/zero-projects checks but
whose host lacks modification-time access (or, when `clean` is requested, file
deletion) reports exactly one diagnostic — "the current host does not support the
--build option" — and exits `DiagnosticsPresent_OutputsSkipped`, performing no build
or clean work. -/
theorem claim_C9_build_capability (env : Env) (args : List String)
    (herr : (env.parseBuildCommand args).errors = [])
    (hhelp : (env.parseBuildCommand args).buildOptions.help = false)
    (hproj : (env.parseBuildCommand args).projects ≠ [])
    (hcap : env.sys.getModifiedTime = false ∨ env.sys.setModifiedTime = false
            ∨ ((env.parseBuildCommand args).buildOptions.clean = true
                ∧ env.sys.deleteFile = false)) :
    performBuild env args =
      ((updateReportDiagnostic env.sys (env.parseBuildCommand args).buildOptions.pretty
          ReporterState.initial).2
        ++ [reportDiag
              (updateReportDiagnostic env.sys (env.parseBuildCommand args).buildOptions.pretty
                ReporterState.initial).1
              (Diagnostic.The_current_host_does_not_support_the_0_option "--build")],
       Outcome.exit ExitStatus.DiagnosticsPresent_OutputsSkipped) ∧
    (performBuild env args).1.countP (fun e => isReportDiagEvent e) = 1 ∧
    Event.EngineBuild ∉ (performBuild env args).1 ∧
    Event.EngineClean ∉ (performBuild env args).1 ∧
    Event.EngineStartWatch ∉ (performBuild env args).1 := by
  have hcond : (!env.sys.getModifiedTime || !env.sys.setModifiedTime
      || ((env.parseBuildCommand args).buildOptions.clean && !env.sys.deleteFile)) = true := by
    rcases hcap with h | h | ⟨h1, h2⟩
    · simp [h]
    · simp [h]
    · simp [h1, h2]
  have he : performBuild env args =
      ((updateReportDiagnostic env.sys (env.parseBuildCommand args).buildOptions.pretty
          ReporterState.initial).2
        ++ [reportDiag
              (updateReportDiagnostic env.sys (env.parseBuildCommand args).buildOptions.pretty
                ReporterState.initial).1
              (Diagnostic.The_current_host_does_not_support_the_0_option "--build")],
       Outcome.exit ExitStatus.DiagnosticsPresent_OutputsSkipped) := by
    unfold performBuild
    simp [herr, hhelp, hproj, hcond]
  refine ⟨he, ?_, ?_, ?_, ?_⟩ <;> rw [he] <;>
    by_cases hsp : shouldBePretty env.sys (env.parseBuildCommand args).buildOptions.pretty = true <;>
    simp [updateReportDiagnostic, hsp, reportDiag, isReportDiagEvent]

/-- Environment for the C9 witness: one project, no errors, and a host without
modification-time support. -/
def envC9 : Env :=
  { baseEnv with
    parseBuildCommand := fun _ => { buildOptions := {}, projects := ["p1"], errors := [] } }

/-- Witness for C9 at a concrete capability-lacking host. -/
theorem claim_C9_build_capability_witness :
    (envC9.parseBuildCommand ["p1"]).errors = [] ∧
    (envC9.parseBuildCommand ["p1"]).projects ≠ [] ∧
    envC9.sys.getModifiedTime = false ∧
    (performBuild envC9 ["p1"] =
      ((updateReportDiagnostic envC9.sys (envC9.parseBuildCommand ["p1"]).buildOptions.pretty
          ReporterState.initial).2
        ++ [reportDiag
              (updateReportDiagnostic envC9.sys (envC9.parseBuildCommand ["p1"]).buildOptions.pretty
                ReporterState.initial).1
              (Diagnostic.The_current_host_does_not_support_the_0_option "--build")],
       Outcome.exit ExitStatus.DiagnosticsPresent_OutputsSkipped)) ∧
    Event.EngineBuild ∉ (performBuild envC9 ["p1"]).1 :=
  ⟨rfl, by decide, rfl,
    (claim_C9_build_capability envC9 ["p1"] rfl rfl (by decide) (Or.inl rfl)).1,
    (claim_C9_build_capability envC9 ["p1"] rfl rfl (by decide) (Or.inl rfl)).2.2.1⟩

/-- The locale step never writes a file. -/
theorem writeFile_not_in_localeEvents (opts : CompilerOptions) (p c : String) :
    Event.WriteFile p c ∉ localeEvents opts := by
  unfold localeEvents
  cases opts.locale <;> simp

/-- The locale step never writes to the output stream. -/
theorem write_not_in_localeEvents (opts : CompilerOptions) (s : String) :
    Event.Write s ∉ localeEvents opts := by
  unfold localeEvents
  cases opts.locale <;> simp

/-- When the resolver falls through all early terminal states and the project block
yields `Sum.inr cfgOpt`, the invocation is the parse/locale prefix followed by
`resolveConfigAndRun`. -/
theorem executeCommandLine_resolves (env : Env) (args : List String)
    (hnb : isBuildCommand args = false)
    (hb : (env.parseCommandLine args).options.build = false)
    (herr : localeErrors env (env.parseCommandLine args) = [])
    (hinit : (env.parseCommandLine args).options.init = false)
    (hver : (env.parseCommandLine args).options.version = false)
    (hhelp : (env.parseCommandLine args).options.help = false)
    (hall : (env.parseCommandLine args).options.all = false)
    (cfgOpt : Option String)
    (hres : resolveProject env (env.parseCommandLine args) ReporterState.initial
      = Sum.inr cfgOpt) :
    executeCommandLine env args =
      (Event.ParseCmdLine :: localeEvents (env.parseCommandLine args).options
        ++ (resolveConfigAndRun env (env.parseCommandLine args) cfgOpt ReporterState.initial).1,
       (resolveConfigAndRun env (env.parseCommandLine args) cfgOpt ReporterState.initial).2) := by
  unfold executeCommandLine
  simp [hnb, hb, herr, hinit, hver, hhelp, hall, hres]

/-- Likewise, when the project block itself terminates (`Sum.inl`), the invocation
is the parse/locale prefix followed by that terminal result. -/
theorem executeCommandLine_projectTerminal (env : Env) (args : List String)
    (hnb : isBuildCommand args = false)
    (hb : (env.parseCommandLine args).options.build = false)
    (herr : localeErrors env (env.parseCommandLine args) = [])
    (hinit : (env.parseCommandLine args).options.init = false)
    (hver : (env.parseCommandLine args).options.version = false)
    (hhelp : (env.parseCommandLine args).options.help = false)
    (hall : (env.parseCommandLine args).options.all = false)
    (r : DriverResult)
    (hres : resolveProject env (env.parseCommandLine args) ReporterState.initial
      = Sum.inl r) :
    executeCommandLine env args =
      (Event.ParseCmdLine :: localeEvents (env.parseCommandLine args).options ++ r.1, r.2) := by
  unfold executeCommandLine
  simp [hnb, hb, herr, hinit, hver, hhelp, hall, hres]

/-- C10: an invocation that reaches the `init` branch (build redirect not taken,
`build` unset, no parse/locale errors) always exits `Success`: when a
`tsconfig.json` already exists at the current directory an "already defined"
diagnostic is reported and no file write occurs; otherwise the scaffolded file is
written and a success diagnostic is reported. -/
theorem claim_C10_init (env : Env) (args : List String)
    (hnb : isBuildCommand args = false)
    (hb : (env.parseCommandLine args).options.build = false)
    (herr : localeErrors env (env.parseCommandLine args) = [])
    (hinit : (env.parseCommandLine args).options.init = true) :
    (executeCommandLine env args).2 = Outcome.exit ExitStatus.Success ∧
    (env.sys.fileExists
        (env.normalizePath (env.combinePaths env.sys.getCurrentDirectory "tsconfig.json")) = true →
      executeCommandLine env args =
        (Event.ParseCmdLine :: localeEvents (env.parseCommandLine args).options
          ++ [Event.ReportDiag false
                (Diagnostic.A_tsconfig_json_file_is_already_defined_at
                  (env.normalizePath (env.combinePaths env.sys.getCurrentDirectory "tsconfig.json")))],
         Outcome.exit ExitStatus.Success) ∧
      (∀ p c, Event.WriteFile p c ∉ (executeCommandLine env args).1)) ∧
    (env.sys.fileExists
        (env.normalizePath (env.combinePaths env.sys.getCurrentDirectory "tsconfig.json")) = false →
      executeCommandLine env args =
        (Event.ParseCmdLine :: localeEvents (env.parseCommandLine args).options
          ++ [Event.WriteFile
                (env.normalizePath (env.combinePaths env.sys.getCurrentDirectory "tsconfig.json"))
                (env.generateTSConfig (env.parseCommandLine args).options
                  (env.parseCommandLine args).fileNames),
              Event.ReportDiag false Diagnostic.Successfully_created_a_tsconfig_json_file],
         Outcome.exit ExitStatus.Success)) := by
  have he : executeCommandLine env args =
      (Event.ParseCmdLine :: localeEvents (env.parseCommandLine args).options
        ++ writeConfigFile env (env.parseCommandLine args).options
            (env.parseCommandLine args).fileNames ReporterState.initial,
       Outcome.exit ExitStatus.Success) := by
    unfold executeCommandLine
    simp [hnb, hb, herr, hinit]
  refine ⟨by rw [he], ?_, ?_⟩
  · intro hfe
    have hw : writeConfigFile env (env.parseCommandLine args).options
        (env.parseCommandLine args).fileNames ReporterState.initial =
        [Event.ReportDiag false
          (Diagnostic.A_tsconfig_json_file_is_already_defined_at
            (env.normalizePath (env.combinePaths env.sys.getCurrentDirectory "tsconfig.json")))] := by
      unfold writeConfigFile
      simp [hfe, reportDiag, ReporterState.initial]
    refine ⟨by rw [he, hw], ?_⟩
    intro p c
    rw [he, hw]
    simp [writeFile_not_in_localeEvents]
  · intro hfe
    have hw : writeConfigFile env (env.parseCommandLine args).options
        (env.parseCommandLine args).fileNames ReporterState.initial =
        [Event.WriteFile
            (env.normalizePath (env.combinePaths env.sys.getCurrentDirectory "tsconfig.json"))
            (env.generateTSConfig (env.parseCommandLine args).options
              (env.parseCommandLine args).fileNames),
         Event.ReportDiag false Diagnostic.Successfully_created_a_tsconfig_json_file] := by
      unfold writeConfigFile
      simp [hfe, reportDiag, ReporterState.initial]
    rw [he, hw]

/-- Environment for the C10 witness: `init` set, no existing `tsconfig.json`. -/
def envC10 : Env :=
  { baseEnv with
    parseCommandLine := fun _ => { options := { init := true }, fileNames := [], errors := [] } }

/-- Witness for C10: scaffold path on a host with no existing config file. -/
theorem claim_C10_init_witness :
    (envC10.parseCommandLine ["--init"]).options.init = true ∧
    envC10.sys.fileExists
      (envC10.normalizePath (envC10.combinePaths envC10.sys.getCurrentDirectory "tsconfig.json")) = false ∧
    (executeCommandLine envC10 ["--init"]).2 = Outcome.exit ExitStatus.Success ∧
    executeCommandLine envC10 ["--init"] =
      (Event.ParseCmdLine :: localeEvents (envC10.parseCommandLine ["--init"]).options
        ++ [Event.WriteFile
              (envC10.normalizePath (envC10.combinePaths envC10.sys.getCurrentDirectory "tsconfig.json"))
              (envC10.generateTSConfig (envC10.parseCommandLine ["--init"]).options
                (envC10.parseCommandLine ["--init"]).fileNames),
            Event.ReportDiag false Diagnostic.Successfully_created_a_tsconfig_json_file],
       Outcome.exit ExitStatus.Success) :=
  ⟨rfl, rfl,
    (claim_C10_init envC10 ["--init"] (by decide) rfl rfl rfl).1,
    (claim_C10_init envC10 ["--init"] (by decide) rfl rfl rfl).2.2 rfl⟩

/-- C2: an invocation reaching the `showConfig` branch (all earlier terminal states
passed, `showConfig` set).  Config-file path: with zero parse errors the driver
writes the serialized effective configuration (one output-stream write) and exits
`Success`; with parse errors it finalizes prettiness from the partial result,
reports every error through the (possibly rebound) reporter, writes nothing to the
output stream, and exits `DiagnosticsPresent_OutputsSkipped`.  No-config path
(necessarily zero parse errors): one serialized-options write and exit `Success`. -/
theorem claim_C2_showConfig (env : Env) (args : List String)
    (hnb : isBuildCommand args = false)
    (hb : (env.parseCommandLine args).options.build = false)
    (herr : localeErrors env (env.parseCommandLine args) = [])
    (hinit : (env.parseCommandLine args).options.init = false)
    (hver : (env.parseCommandLine args).options.version = false)
    (hhelp : (env.parseCommandLine args).options.help = false)
    (hall : (env.parseCommandLine args).options.all = false)
    (hshow : (env.parseCommandLine args).options.showConfig = true) :
    (∀ cfg, resolveProject env (env.parseCommandLine args) ReporterState.initial
        = Sum.inr (some cfg) →
      ((env.parseConfigFile cfg (env.parseCommandLine args).options).errors = [] →
        executeCommandLine env args =
          (Event.ParseCmdLine :: localeEvents (env.parseCommandLine args).options
            ++ [Event.Write (env.serializeConfig
                  (env.parseConfigFile cfg (env.parseCommandLine args).options) cfg
                  ++ env.sys.newLine)],
           Outcome.exit ExitStatus.Success)) ∧
      ((env.parseConfigFile cfg (env.parseCommandLine args).options).errors ≠ [] →
        (executeCommandLine env args).2
            = Outcome.exit ExitStatus.DiagnosticsPresent_OutputsSkipped ∧
        (∀ s, Event.Write s ∉ (executeCommandLine env args).1) ∧
        executeCommandLine env args =
          (Event.ParseCmdLine :: localeEvents (env.parseCommandLine args).options
            ++ ((updateReportDiagnostic env.sys
                  (env.parseConfigFile cfg (env.parseCommandLine args).options).options.pretty
                  ReporterState.initial).2
              ++ (env.parseConfigFile cfg (env.parseCommandLine args).options).errors.map
                  (reportDiag (updateReportDiagnostic env.sys
                    (env.parseConfigFile cfg (env.parseCommandLine args).options).options.pretty
                    ReporterState.initial).1)),
           Outcome.exit ExitStatus.DiagnosticsPresent_OutputsSkipped))) ∧
    (resolveProject env (env.parseCommandLine args) ReporterState.initial = Sum.inr none →
      (env.parseCommandLine args).fileNames ≠ [] →
      executeCommandLine env args =
        (Event.ParseCmdLine :: localeEvents (env.parseCommandLine args).options
          ++ [Event.Write (env.serializeCmdLine (env.parseCommandLine args)
                (env.combinePaths env.sys.getCurrentDirectory "tsconfig.json")
                ++ env.sys.newLine)],
         Outcome.exit ExitStatus.Success)) := by
  constructor
  · intro cfg hres
    have h1 := executeCommandLine_resolves env args hnb hb herr hinit hver hhelp hall
      (some cfg) hres
    constructor
    · intro herrs
      rw [h1]
      unfold resolveConfigAndRun
      simp [hshow, herrs]
    · intro herrs
      have h2 : resolveConfigAndRun env (env.parseCommandLine args) (some cfg)
          ReporterState.initial =
          ((updateReportDiagnostic env.sys
              (env.parseConfigFile cfg (env.parseCommandLine args).options).options.pretty
              ReporterState.initial).2
            ++ (env.parseConfigFile cfg (env.parseCommandLine args).options).errors.map
                (reportDiag (updateReportDiagnostic env.sys
                  (env.parseConfigFile cfg (env.parseCommandLine args).options).options.pretty
                  ReporterState.initial).1),
           Outcome.exit ExitStatus.DiagnosticsPresent_OutputsSkipped) := by
        unfold resolveConfigAndRun
        simp [hshow, herrs]
      refine ⟨by rw [h1, h2], ?_, by rw [h1, h2]⟩
      intro s
      rw [h1, h2]
      intro hmem
      rcases List.mem_cons.1 hmem with h | h
      · simp at h
      rcases List.mem_append.1 h with h | h
      · exact write_not_in_localeEvents _ s h
      rcases List.mem_append.1 h with h | h
      · revert h
        unfold updateReportDiagnostic
        split <;> simp
      · rcases List.mem_map.1 h with ⟨d, _, hd⟩
        simp [reportDiag] at hd
  · intro hres hfn
    rw [executeCommandLine_resolves env args hnb hb herr hinit hver hhelp hall none hres]
    unfold resolveConfigAndRun
    simp [hshow, hfn]

/-- Environment for the C2 witness: `showConfig` with a project whose config file
resolves and parses without errors. -/
def envC2 : Env :=
  { baseEnv with
    sys := { fileExists := fun _ => true }
    parseCommandLine := fun _ =>
      { options := { project := some "p", showConfig := true }, fileNames := [], errors := [] } }

/-- Witness for C2: the zero-error config path writes the serialized configuration
and exits `Success`. -/
theorem claim_C2_showConfig_witness :
    (envC2.parseCommandLine ["-p", "p", "--showConfig"]).options.showConfig = true ∧
    resolveProject envC2 (envC2.parseCommandLine ["-p", "p", "--showConfig"])
      ReporterState.initial = Sum.inr (some "p") ∧
    (envC2.parseConfigFile "p"
      (envC2.parseCommandLine ["-p", "p", "--showConfig"]).options).errors = [] ∧
    executeCommandLine envC2 ["-p", "p", "--showConfig"] =
      (Event.ParseCmdLine
          :: localeEvents (envC2.parseCommandLine ["-p", "p", "--showConfig"]).options
        ++ [Event.Write (envC2.serializeConfig
              (envC2.parseConfigFile "p"
                (envC2.parseCommandLine ["-p", "p", "--showConfig"]).options) "p"
              ++ envC2.sys.newLine)],
       Outcome.exit ExitStatus.Success) :=
  ⟨rfl, by decide, rfl,
    ((claim_C2_showConfig envC2 ["-p", "p", "--showConfig"] (by decide) rfl rfl rfl rfl rfl
        rfl rfl).1 "p" (by decide)).1 rfl⟩

/-- Environment refuting C7 as stated: the parser yields `project` and a source
file together with `version = true`; the version check precedes the project
check. -/
def envC7 : Env :=
  { baseEnv with
    parseCommandLine := fun _ =>
      { options := { version := true, project := some "p" }, fileNames := ["a.ts"],
        errors := [] } }

/-- Counterexample to C7 as stated: an invocation with `options.project` set and
`fileNames` non-empty (but also `version` set) exits `Success` after printing the
version — it does not report the "cannot be mixed" diagnostic and does not exit
`DiagnosticsPresent_OutputsSkipped`. -/
theorem claim_C7_counterexample :
    (envC7.parseCommandLine ["--version", "--project", "p", "a.ts"]).options.project
      = some "p" ∧
    (envC7.parseCommandLine ["--version", "--project", "p", "a.ts"]).fileNames ≠ [] ∧
    executeCommandLine envC7 ["--version", "--project", "p", "a.ts"] =
      ([Event.ParseCmdLine, Event.PrintVersion], Outcome.exit ExitStatus.Success) ∧
    (executeCommandLine envC7 ["--version", "--project", "p", "a.ts"]).2
      ≠ Outcome.exit ExitStatus.DiagnosticsPresent_OutputsSkipped ∧
    (∀ b : Bool,
      Event.ReportDiag b Diagnostic.Option_project_cannot_be_mixed_with_source_files_on_a_command_line
        ∉ (executeCommandLine envC7 ["--version", "--project", "p", "a.ts"]).1) := by
  refine ⟨rfl, by decide, ?_, by decide, by decide⟩
  decide

/-- C7 (amended): provided the invocation reaches the project block (build redirect
not taken, `build` unset, no parse/locale errors, and `init`/`version`/`help`/`all`
unset) and `options.project` is set: with `fileNames` non-empty the driver reports
only the "cannot be mixed" diagnostic and exits `DiagnosticsPresent_OutputsSkipped`,
attempting no config resolution; with `fileNames` empty the project value resolves
to the directory's default `tsconfig.json` (current-directory or existing-directory
case) or to the direct file path, and a non-existent resolved path yields the
corresponding diagnostic and exit `DiagnosticsPresent_OutputsSkipped`. -/
theorem claim_C7_project_mixing (env : Env) (args : List String) (proj : String)
    (hnb : isBuildCommand args = false)
    (hb : (env.parseCommandLine args).options.build = false)
    (herr : localeErrors env (env.parseCommandLine args) = [])
    (hinit : (env.parseCommandLine args).options.init = false)
    (hver : (env.parseCommandLine args).options.version = false)
    (hhelp : (env.parseCommandLine args).options.help = false)
    (hall : (env.parseCommandLine args).options.all = false)
    (hproj : (env.parseCommandLine args).options.project = some proj) :
    ((env.parseCommandLine args).fileNames ≠ [] →
      executeCommandLine env args =
        (Event.ParseCmdLine :: localeEvents (env.parseCommandLine args).options
          ++ [Event.ReportDiag false
                Diagnostic.Option_project_cannot_be_mixed_with_source_files_on_a_command_line],
         Outcome.exit ExitStatus.DiagnosticsPresent_OutputsSkipped)) ∧
    ((env.parseCommandLine args).fileNames = [] →
      (env.normalizePath proj = "" ∨ env.sys.directoryExists (env.normalizePath proj) = true) →
      env.sys.fileExists (env.combinePaths (env.normalizePath proj) "tsconfig.json") = false →
      executeCommandLine env args =
        (Event.ParseCmdLine :: localeEvents (env.parseCommandLine args).options
          ++ [Event.ReportDiag false
                (Diagnostic.Cannot_find_a_tsconfig_json_file_at_the_specified_directory proj)],
         Outcome.exit ExitStatus.DiagnosticsPresent_OutputsSkipped)) ∧
    ((env.parseCommandLine args).fileNames = [] →
      ¬(env.normalizePath proj = "" ∨ env.sys.directoryExists (env.normalizePath proj) = true) →
      env.sys.fileExists (env.normalizePath proj) = false →
      executeCommandLine env args =
        (Event.ParseCmdLine :: localeEvents (env.parseCommandLine args).options
          ++ [Event.ReportDiag false (Diagnostic.The_specified_path_does_not_exist proj)],
         Outcome.exit ExitStatus.DiagnosticsPresent_OutputsSkipped)) := by
  refine ⟨?_, ?_, ?_⟩
  · intro hfn
    have hres : resolveProject env (env.parseCommandLine args) ReporterState.initial
        = Sum.inl ([Event.ReportDiag false
            Diagnostic.Option_project_cannot_be_mixed_with_source_files_on_a_command_line],
          Outcome.exit ExitStatus.DiagnosticsPresent_OutputsSkipped) := by
      unfold resolveProject
      simp [hproj, hfn, reportDiag, ReporterState.initial]
    exact executeCommandLine_projectTerminal env args hnb hb herr hinit hver hhelp hall _ hres
  · intro hfn hdir hfe
    have hres : resolveProject env (env.parseCommandLine args) ReporterState.initial
        = Sum.inl ([Event.ReportDiag false
            (Diagnostic.Cannot_find_a_tsconfig_json_file_at_the_specified_directory proj)],
          Outcome.exit ExitStatus.DiagnosticsPresent_OutputsSkipped) := by
      unfold resolveProject
      simp only [hproj, hfn]
      rw [if_neg (by simp)]
      rw [if_pos hdir, if_neg (by simp [hfe])]
      simp [reportDiag, ReporterState.initial]
    exact executeCommandLine_projectTerminal env args hnb hb herr hinit hver hhelp hall _ hres
  · intro hfn hdir hfe
    have hres : resolveProject env (env.parseCommandLine args) ReporterState.initial
        = Sum.inl ([Event.ReportDiag false (Diagnostic.The_specified_path_does_not_exist proj)],
          Outcome.exit ExitStatus.DiagnosticsPresent_OutputsSkipped) := by
      unfold resolveProject
      simp only [hproj, hfn]
      rw [if_neg (by simp)]
      rw [if_neg hdir, if_neg (by simp [hfe])]
      simp [reportDiag, ReporterState.initial]
    exact executeCommandLine_projectTerminal env args hnb hb herr hinit hver hhelp hall _ hres

/-- Environment for the C7 witness: `project` together with a source file and no
other option. -/
def envC7W : Env :=
  { baseEnv with
    parseCommandLine := fun _ =>
      { options := { project := some "p" }, fileNames := ["a.ts"], errors := [] } }

/-- Witness for the amended C7: mixing `project` with a file is rejected. -/
theorem claim_C7_project_mixing_witness :
    (envC7W.parseCommandLine ["-p", "p", "a.ts"]).options.project = some "p" ∧
    (envC7W.parseCommandLine ["-p", "p", "a.ts"]).fileNames ≠ [] ∧
    executeCommandLine envC7W ["-p", "p", "a.ts"] =
      (Event.ParseCmdLine :: localeEvents (envC7W.parseCommandLine ["-p", "p", "a.ts"]).options
        ++ [Event.ReportDiag false
              Diagnostic.Option_project_cannot_be_mixed_with_source_files_on_a_command_line],
       Outcome.exit ExitStatus.DiagnosticsPresent_OutputsSkipped) :=
  ⟨rfl, by decide,
    (claim_C7_project_mixing envC7W ["-p", "p", "a.ts"] "p" (by decide) rfl rfl rfl rfl rfl
        rfl rfl).1 (by decide)⟩

end Tsc
